import Mathlib

/-!
Verification development for the resilience/observability wrapping layer of
the `ict-trading-ai-agent` repository: a shallow embedding of
`src/utils/decorators.py` (performance monitoring, retry with exponential
backoff, result caching, DataFrame validation) and of the exception
hierarchy in `src/utils/exceptions.py`, together with theorems settling the
behavioural claims about that layer.

Modelling conventions:
* Python exceptions are `PyExc`: a class (drawn from the hierarchy of
  `exceptions.py` plus the built-ins the code can raise) and a payload
  describing the message content.
* A fallible Python call is an `Except PyExc α`.
* `float` delays are modelled as `ℚ`; wall-clock instants as `ℚ`.
* Stateful wrappers are explicit state-passing functions returning a record
  of the observable effects (invocation count, sleeps, log records, cache
  state).
-/

namespace ICT

/-- Python exception classes reachable from the code under study: the
hierarchy defined in `src/utils/exceptions.py` (rooted at `ICTTradingError`,
itself a subclass of the built-in `Exception`) plus the built-ins
`ValueError` (raised by `validate_data`) and `TypeError` (raised by the
interpreter when `raise None` executes). -/
inductive ExcClass where
  | Exception
  | ValueError
  | TypeError
  | ICTTradingError
  | DataError
  | DataValidationError
  | DataSourceError
  | InsufficientDataError
  | ICTAnalysisError
  | PatternNotFoundError
  | InvalidPatternError
  | MLError
  | ModelNotFoundError
  | MLTrainingError
  | FeatureEngineeringError
  | TradingError
  | RiskManagementError
  | ExecutionError
  | PositionSizingError
  | BacktestError
  | PerformanceCalculationError
  | ConfigurationError
  | ValidationError
deriving DecidableEq, Repr

/-- Direct superclass of each exception class, exactly as declared in
`src/utils/exceptions.py` (built-ins per the Python standard library). -/
def parentClass : ExcClass → Option ExcClass
  | .Exception => none
  | .ValueError => some .Exception
  | .TypeError => some .Exception
  | .ICTTradingError => some .Exception
  | .DataError => some .ICTTradingError
  | .DataValidationError => some .DataError
  | .DataSourceError => some .DataError
  | .InsufficientDataError => some .DataError
  | .ICTAnalysisError => some .ICTTradingError
  | .PatternNotFoundError => some .ICTAnalysisError
  | .InvalidPatternError => some .ICTAnalysisError
  | .MLError => some .ICTTradingError
  | .ModelNotFoundError => some .MLError
  | .MLTrainingError => some .MLError
  | .FeatureEngineeringError => some .MLError
  | .TradingError => some .ICTTradingError
  | .RiskManagementError => some .TradingError
  | .ExecutionError => some .TradingError
  | .PositionSizingError => some .TradingError
  | .BacktestError => some .ICTTradingError
  | .PerformanceCalculationError => some .BacktestError
  | .ConfigurationError => some .ICTTradingError
  | .ValidationError => some .ICTTradingError

/-- Chain of classes from `c` upward through its superclasses (with fuel
`n`, large enough for the hierarchy above, whose depth is at most 4). -/
def ancestorChain : ExcClass → Nat → List ExcClass
  | c, 0 => [c]
  | c, n + 1 =>
    c :: (match parentClass c with
          | none => []
          | some p => ancestorChain p n)

/-- Python `isinstance`-style test on classes: `c` is `d` or inherits from
`d`. Fuel 6 exceeds the depth of every chain in `parentClass`. -/
def isSubclassB (c d : ExcClass) : Bool :=
  (ancestorChain c 6).contains d

/-- Informational content of an exception message.  `rowCount a r` stands
for the f-string `DataFrame has {a} rows, need at least {r}` and
`missingColumns cols` for `Missing required columns: {cols}` from
`validate_data`; any other message is `text`. -/
inductive PyMsg where
  | text (s : String)
  | rowCount (actual required : Nat)
  | missingColumns (cols : List String)
deriving DecidableEq, Repr

/-- A Python exception object: its class and its message content. -/
structure PyExc where
  cls : ExcClass
  msg : PyMsg
deriving DecidableEq, Repr

/-- The exception the interpreter raises when `raise None` executes, which
is what `raise last_exception` does when the retry loop body never ran. -/
def raiseNoneExc : PyExc :=
  ⟨.TypeError, .text "exceptions must derive from BaseException"⟩

/-- Re-raising `last_exception`: `raise e` for a recorded exception, and
`raise None` (a `TypeError`) when none was recorded. -/
def raiseLast : Option PyExc → PyExc
  | some e => e
  | none => raiseNoneExc

/-- Observable behaviour of one run of a retry-wrapped call: how many times
the wrapped function was invoked, the sleeps performed between attempts (in
order, in seconds), and the final outcome. -/
structure RetryTrace (α : Type) where
  calls : Nat
  sleeps : List ℚ
  outcome : Except PyExc α
deriving Repr

/-- Loop body of `retry` in `src/utils/decorators.py` (lines 51-73): the
`for attempt in range(max_attempts)` loop, with `remaining` the number of
iterations left, `attempt` the current 0-based index, `current_delay` the
delay to sleep before the next attempt, and `lastExc` the recorded
`last_exception`.  The wrapped function is `op`, whose behaviour on its
`k`-th invocation (0-based) is `op k`.  On success the loop returns; on
failure it records the exception and, unless this was the final attempt,
sleeps `current_delay` and multiplies it by `backoff`; after the loop,
`raise last_exception`. -/
def retryGo (op : Nat → Except PyExc α) (backoff : ℚ) :
    Nat → Nat → ℚ → Option PyExc → RetryTrace α
  | 0, _, _, lastExc => ⟨0, [], .error (raiseLast lastExc)⟩
  | remaining + 1, attempt, currentDelay, _ =>
    match op attempt with
    | .ok result => ⟨1, [], .ok result⟩
    | .error e =>
      if remaining = 0 then
        ⟨1, [], .error e⟩
      else
        let rest := retryGo op backoff remaining (attempt + 1) (currentDelay * backoff) (some e)
        ⟨rest.calls + 1, currentDelay :: rest.sleeps, rest.outcome⟩

/-- The `retry(max_attempts, delay, backoff)` decorator applied to a
function whose `k`-th invocation behaves as `op k`: `current_delay` starts
at `delay`, `last_exception` at `None`, then the attempt loop runs. -/
def retry (max_attempts : Nat) (delay backoff : ℚ)
    (op : Nat → Except PyExc α) : RetryTrace α :=
  retryGo op backoff max_attempts 0 delay none

/-- The `retry_async` decorator (lines 75-97) duplicates `retry` verbatim,
with `await asyncio.sleep` in place of `time.sleep`; in this embedding the
two have identical traces. -/
def retry_async (max_attempts : Nat) (delay backoff : ℚ)
    (op : Nat → Except PyExc α) : RetryTrace α :=
  retryGo op backoff max_attempts 0 delay none

/-! ### Performance monitoring (`monitor_performance`, lines 19-49)

The wrapper records a start time, runs the function, and emits exactly one
log record: `logger.debug` with the elapsed time on success, `logger.error`
with the elapsed time and the exception on failure, re-raising the
exception unchanged.  The elapsed wall-clock time is an input `elapsed`
here (the difference of the two `time.time()` readings). -/

/-- Level of a log record emitted through `logger`. -/
inductive LogLevel where
  | debug
  | warning
  | error
deriving DecidableEq, Repr

/-- One record emitted to the logging collaborator: level, the wrapped
function's `__name__`, and the elapsed seconds interpolated into the
message. -/
structure LogRecord where
  level : LogLevel
  func : String
  elapsed : ℚ
deriving DecidableEq, Repr

/-- The `monitor_performance` decorator (lines 19-33) applied to a function
named `funcName` whose invocation behaves as `op` and takes `elapsed`
seconds of wall-clock time: the pair of the forwarded outcome and the list
of log records the wrapper emits. -/
def monitor_performance (funcName : String) (elapsed : ℚ)
    (op : Except PyExc α) : Except PyExc α × List LogRecord :=
  match op with
  | .ok r => (.ok r, [⟨.debug, funcName, elapsed⟩])
  | .error e => (.error e, [⟨.error, funcName, elapsed⟩])

/-- The `monitor_performance_async` decorator (lines 35-49) duplicates
`monitor_performance` verbatim around an awaited call; in this embedding
the two coincide. -/
def monitor_performance_async (funcName : String) (elapsed : ℚ)
    (op : Except PyExc α) : Except PyExc α × List LogRecord :=
  match op with
  | .ok r => (.ok r, [⟨.debug, funcName, elapsed⟩])
  | .error e => (.error e, [⟨.error, funcName, elapsed⟩])

/-! ### Result caching (`cache_result`, lines 99-126, and `_cache`, line 17)

`_cache = TTLCache(maxsize=1000, ttl=300)` is a single module-level store
shared by every decorated function.  The cache key is
`md5(json.dumps({'func': func.__name__, 'args': str(args),
'kwargs': str(sorted(kwargs.items()))}, sort_keys=True)).hexdigest()`.
The digest is a deterministic function of the triple (function name,
serialized positional arguments, sorted keyword items), so the key is
modelled as that triple itself; only the equal-inputs-give-equal-keys
direction of hashing is ever used.  Keyword values are modelled by their
serialized form (a `String`), and Python compares `(name, value)` items
lexicographically when sorting them. -/

/-- Ordering used by Python's `sorted` on `kwargs.items()`: lexicographic
comparison of `(name, value)` pairs of strings. -/
def kwLe (a b : String × String) : Prop :=
  a.1 < b.1 ∨ (a.1 = b.1 ∧ a.2 ≤ b.2)

instance : DecidableRel kwLe := fun a b => by
  unfold kwLe
  exact inferInstance

instance : IsTotal (String × String) kwLe := ⟨by
  intro a b
  rcases lt_trichotomy a.1 b.1 with h | h | h
  · exact Or.inl (Or.inl h)
  · rcases le_total a.2 b.2 with h2 | h2
    · exact Or.inl (Or.inr ⟨h, h2⟩)
    · exact Or.inr (Or.inr ⟨h.symm, h2⟩)
  · exact Or.inr (Or.inl h)⟩

instance : IsTrans (String × String) kwLe := ⟨by
  intro a b c hab hbc
  rcases hab with h1 | ⟨e1, l1⟩
  · rcases hbc with h2 | ⟨e2, l2⟩
    · exact Or.inl (h1.trans h2)
    · exact Or.inl (e2 ▸ h1)
  · rcases hbc with h2 | ⟨e2, l2⟩
    · exact Or.inl (e1 ▸ h2)
    · exact Or.inr ⟨e1.trans e2, l1.trans l2⟩⟩

instance : IsAntisymm (String × String) kwLe := ⟨by
  intro a b hab hba
  rcases hab with h1 | ⟨e1, l1⟩
  · rcases hba with h2 | ⟨e2, l2⟩
    · exact absurd (h1.trans h2) (lt_irrefl _)
    · exact absurd h1 (by rw [e2]; exact lt_irrefl _)
  · rcases hba with h2 | ⟨e2, l2⟩
    · exact absurd h2 (by rw [e1]; exact lt_irrefl _)
    · exact Prod.ext e1 (le_antisymm l1 l2)⟩

/-- Python's `sorted(kwargs.items())`: the keyword items in ascending
lexicographic order. -/
def sortKwargs (l : List (String × String)) : List (String × String) :=
  List.insertionSort kwLe l

/-- Cache key for a decorated call, modelling the md5 digest by the data it
is computed from: the function's `__name__`, `str(args)`, and the sorted
keyword items. -/
structure CacheKey where
  func : String
  argsRepr : String
  kwargsSorted : List (String × String)
deriving DecidableEq, Repr

/-- Key derivation of `cache_result` (lines 104-110). -/
def cacheKeyOf (funcName argsRepr : String)
    (kwargs : List (String × String)) : CacheKey :=
  ⟨funcName, argsRepr, sortKwargs kwargs⟩

/-- The fixed time-to-live of the module-level `_cache` (line 17):
`TTLCache(maxsize=1000, ttl=300)`. -/
def cacheTtl : ℚ := 300

/-- The fixed capacity of the module-level `_cache` (line 17).  Capacity
eviction triggers only above 1000 live entries and no claim involves such a
state, so eviction is not modelled further. -/
def cacheMaxsize : Nat := 1000

/-- One stored cache entry: the value and the instant at which it expires
(`insertion time + ttl`, as `TTLCache` computes it). -/
structure CacheEntry (V : Type) where
  value : V
  expires : ℚ

/-- The state of the module-level `_cache`: stored entries keyed by cache
key, most recent store first. -/
abbrev CacheState (V : Type) := List (CacheKey × CacheEntry V)

/-- Entry stored under `k`, if any (the most recent store wins, as a `dict`
assignment overwrites). -/
def cacheFind : CacheState V → CacheKey → Option (CacheEntry V)
  | [], _ => none
  | (k2, e) :: rest, k => if k2 = k then some e else cacheFind rest k

/-- Lookup in `_cache` at instant `now`, as both `cache_key in _cache` and
`_cache[cache_key]` behave for a `TTLCache`: an entry is visible only while
`now < expires`; an expired entry is indistinguishable from an absent
one. -/
def cacheGet (st : CacheState V) (k : CacheKey) (now : ℚ) : Option V :=
  match cacheFind st k with
  | some e => if now < e.expires then some e.value else none
  | none => none

/-- The store `_cache[cache_key] = result` at instant `now`: the entry
expires at `now + cacheTtl` (the `TTLCache` ttl of 300 seconds, independent
of the decorator's `ttl_seconds` argument). -/
def cachePut (st : CacheState V) (k : CacheKey) (v : V) (now : ℚ) :
    CacheState V :=
  (k, ⟨v, now + cacheTtl⟩) :: st

/-- Observable behaviour of one call of a `cache_result`-wrapped function:
whether the underlying function was invoked, the outcome returned to the
caller, and the cache state afterwards. -/
structure CacheCall (V : Type) where
  invoked : Bool
  result : Except PyExc V
  state : CacheState V

/-- One call of a function decorated with `cache_result(ttl_seconds)`
(lines 99-126).  `funcName` is the function's `__name__`, `op` the
behaviour of the underlying function on this call, `argsRepr` the
serialized positional arguments, `kwargs` the keyword items, `now` the
current time and `st` the state of `_cache`.  The decorator computes the
key, returns the cached value on a hit, and otherwise runs the function
and stores a successful result.  `ttl_seconds` is accepted but never read
by the decorator body, exactly as in the source. -/
def cache_result (ttl_seconds : ℚ) (funcName : String)
    (op : Except PyExc V) (argsRepr : String)
    (kwargs : List (String × String)) (now : ℚ) (st : CacheState V) :
    CacheCall V :=
  match cacheGet st (cacheKeyOf funcName argsRepr kwargs) now with
  | some v => ⟨false, .ok v, st⟩
  | none =>
    match op with
    | .ok r => ⟨true, .ok r, cachePut st (cacheKeyOf funcName argsRepr kwargs) r now⟩
    | .error e => ⟨true, .error e, st⟩

/-! ### DataFrame validation (`validate_data`, lines 128-158)

The wrapper looks for the first argument (positional, then keyword values)
that has both a `columns` and an `index` attribute, treats it as the
DataFrame, and checks `len(df) >= min_rows` first and then, when
`required_columns` is truthy, membership of each required column in
`df.columns`; a violation raises the built-in `ValueError` before the
wrapped function runs. -/

/-- The tabular data a validated argument exposes: its column names and its
row count (`len(df)`). -/
structure DataFrame where
  columns : List String
  nrows : Nat
deriving DecidableEq, Repr

/-- A Python argument value as `validate_data` discriminates them: a
DataFrame (which has both `columns` and `index` attributes) or any other
value (which has not). -/
inductive PyValue where
  | frame (d : DataFrame)
  | scalar (s : String)
deriving DecidableEq, Repr

/-- The `hasattr(arg, 'columns') and hasattr(arg, 'index')` probe. -/
def asFrame : PyValue → Option DataFrame
  | .frame d => some d
  | .scalar _ => none

/-- The DataFrame-locating loops of `validate_data` (lines 134-144): first
matching positional argument, else first matching keyword value. -/
def findDataFrame (args : List PyValue)
    (kwargs : List (String × PyValue)) : Option DataFrame :=
  match (args.filterMap asFrame).head? with
  | some d => some d
  | none => ((kwargs.map Prod.snd).filterMap asFrame).head?

/-- Python truthiness of the `required_columns` parameter: `if
required_columns:` is false both for `None` and for an empty list. -/
def requiredTruthy : Option (List String) → Bool
  | none => false
  | some cols => !cols.isEmpty

/-- Required columns absent from the DataFrame, in the order of
`required_columns` (the list comprehension on line 152). -/
def missingColumnsOf (cols : List String) (df : DataFrame) : List String :=
  cols.filter (fun c => !df.columns.contains c)

/-- Observable behaviour of one call of a `validate_data`-wrapped function:
whether the wrapped function was invoked, and the outcome. -/
structure ValidateCall (α : Type) where
  invoked : Bool
  result : Except PyExc α

/-- One call of a function decorated with
`validate_data(required_columns, min_rows)` (lines 128-158), where `op` is
the behaviour of the wrapped function on this call. -/
def validate_data (required_columns : Option (List String))
    (min_rows : Nat) (op : Except PyExc α) (args : List PyValue)
    (kwargs : List (String × PyValue)) : ValidateCall α :=
  match findDataFrame args kwargs with
  | none => ⟨true, op⟩
  | some df =>
    if df.nrows < min_rows then
      ⟨false, .error ⟨.ValueError, .rowCount df.nrows min_rows⟩⟩
    else if requiredTruthy required_columns then
      if !(missingColumnsOf (required_columns.getD []) df).isEmpty then
        ⟨false, .error ⟨.ValueError,
          .missingColumns (missingColumnsOf (required_columns.getD []) df)⟩⟩
      else
        ⟨true, op⟩
    else
      ⟨true, op⟩

/-! ## Helper lemmas about the retry loop -/

/-- Complete trace of the retry loop over an always-failing operation:
with `remaining ≥ 1` iterations left at 0-based index `attempt` and current
delay `d`, the loop performs exactly `remaining` invocations, sleeps the
geometric sequence `d, d·b, …, d·b^(remaining-2)`, and finally raises the
exception of the last attempt. -/
theorem retryGo_allFail {α : Type} (op : Nat → Except PyExc α)
    (err : Nat → PyExc) (b : ℚ)
    (hop : ∀ k, op k = Except.error (err k)) :
    ∀ remaining, 1 ≤ remaining → ∀ attempt d le,
      retryGo op b remaining attempt d le =
        ⟨remaining, (List.range (remaining - 1)).map (fun i => d * b ^ i),
          Except.error (err (attempt + remaining - 1))⟩ := by
  intro remaining
  induction remaining with
  | zero => intro h; exact absurd h (by omega)
  | succ r ih =>
    intro _ attempt d le
    rcases Nat.eq_zero_or_pos r with hr | hr
    · subst hr
      simp [retryGo, hop attempt]
    · have hr0 : r ≠ 0 := Nat.pos_iff_ne_zero.mp hr
      have hrec := ih hr (attempt + 1) (d * b) (some (err attempt))
      have hs : (List.range r).map (fun i => d * b ^ i)
          = d :: (List.range (r - 1)).map (fun i => d * b * b ^ i) := by
        conv_lhs => rw [show r = (r - 1) + 1 by omega]
        rw [List.range_succ_eq_map, List.map_cons, List.map_map]
        refine congrArg₂ List.cons (by simp) ?_
        congr 1
        funext i
        simp only [Function.comp_apply, pow_succ]
        ring
      have hidx : attempt + 1 + r - 1 = attempt + (r + 1) - 1 := by omega
      simp only [retryGo, hop attempt, if_neg hr0, hrec, hs, hidx]
      rw [Nat.add_sub_cancel, hs]

/-- The outcome of the retry loop (when at least one iteration runs) is the
verbatim result of some attempt within range, and the operation is invoked
at least once. -/
theorem retryGo_outcome_of_attempt {α : Type} (op : Nat → Except PyExc α)
    (b : ℚ) :
    ∀ remaining, 1 ≤ remaining → ∀ attempt d le,
      ∃ k, attempt ≤ k ∧ k < attempt + remaining ∧
        (retryGo op b remaining attempt d le).outcome = op k ∧
        1 ≤ (retryGo op b remaining attempt d le).calls := by
  intro remaining
  induction remaining with
  | zero => intro h; exact absurd h (by omega)
  | succ r ih =>
    intro _ attempt d le
    cases hcase : op attempt with
    | ok a =>
      refine ⟨attempt, le_refl _, by omega, ?_, ?_⟩ <;>
        simp [retryGo, hcase]
    | error e =>
      rcases Nat.eq_zero_or_pos r with hr | hr
      · subst hr
        refine ⟨attempt, le_refl _, by omega, ?_, ?_⟩ <;>
          simp [retryGo, hcase]
      · have hr0 : r ≠ 0 := Nat.pos_iff_ne_zero.mp hr
        obtain ⟨k, hk1, hk2, hout, hcalls⟩ :=
          ih hr (attempt + 1) (d * b) (some e)
        refine ⟨k, by omega, by omega, ?_, ?_⟩
        · simp [retryGo, hcase, if_neg hr0, hout]
        · simp only [retryGo, hcase, if_neg hr0]
          omega

/-! ## Claims about the retry wrapper -/

/-- C1: for every `max_attempts = n ≥ 1` and every wrapped operation that
raises an error on every invocation, the retry-wrapped call invokes the
underlying operation exactly `n` times and finally raises exactly the
error object raised on the `n`-th invocation (index `n - 1` in 0-based
numbering of invocations). -/
theorem claim_c1 {α : Type} (op : Nat → Except PyExc α)
    (err : Nat → PyExc) (n : Nat) (d b : ℚ) (hn : 1 ≤ n)
    (hop : ∀ k, op k = Except.error (err k)) :
    (retry n d b op).calls = n ∧
      (retry n d b op).outcome = Except.error (err (n - 1)) := by
  have h := retryGo_allFail op err b hop n hn 0 d none
  unfold retry
  rw [h]
  exact ⟨rfl, by simp⟩

/-- Witness for C1 at `n = 3` and a concrete always-failing operation. -/
theorem claim_c1_witness :
    (retry 3 1 2 (fun _ =>
        (Except.error ⟨ExcClass.DataSourceError, PyMsg.text "down"⟩ :
          Except PyExc Nat))).calls = 3 ∧
      (retry 3 1 2 (fun _ =>
        (Except.error ⟨ExcClass.DataSourceError, PyMsg.text "down"⟩ :
          Except PyExc Nat))).outcome =
        Except.error ⟨ExcClass.DataSourceError, PyMsg.text "down"⟩ :=
  claim_c1 _ (fun _ => ⟨ExcClass.DataSourceError, PyMsg.text "down"⟩)
    3 1 2 (by norm_num) (fun _ => rfl)

/-- C4: for every `max_attempts = n ≥ 1`, `base_delay = d ≥ 0` and
`backoff_factor = b ≥ 1`, an always-failing operation makes the retry
wrapper wait exactly `n - 1` times; the wait performed before attempt `k`
(for `2 ≤ k ≤ n`, i.e. at 0-based position `k - 2` of the sleep sequence)
equals `d · b^(k-2)`; `retry_async` behaves identically; and with
`max_attempts = 1` the operation runs exactly once with no wait. -/
theorem claim_c4 {α : Type} (op : Nat → Except PyExc α)
    (err : Nat → PyExc) (n : Nat) (d b : ℚ)
    (hn : 1 ≤ n) (hd : 0 ≤ d) (hb : 1 ≤ b)
    (hop : ∀ k, op k = Except.error (err k)) :
    (retry n d b op).sleeps.length = n - 1 ∧
      (∀ k, 2 ≤ k → k ≤ n →
        (retry n d b op).sleeps[k - 2]? = some (d * b ^ (k - 2))) ∧
      retry_async n d b op = retry n d b op ∧
      (n = 1 → (retry n d b op).calls = 1 ∧ (retry n d b op).sleeps = []) := by
  have h := retryGo_allFail op err b hop n hn 0 d none
  unfold retry retry_async
  rw [h]
  refine ⟨by simp, ?_, rfl, ?_⟩
  · intro k h2 hk
    have hlt : k - 2 < n - 1 := by omega
    simp [List.getElem?_map, List.getElem?_range, hlt]
  · intro h1
    subst h1
    simp

/-- Witness for C4 at `n = 3`, `d = 2`, `b = 3`: two waits, and the wait
before attempt 3 is `2 · 3^1`. -/
theorem claim_c4_witness :
    (retry 3 2 3 (fun _ =>
        (Except.error ⟨ExcClass.MLTrainingError, PyMsg.text "diverged"⟩ :
          Except PyExc Nat))).sleeps.length = 2 ∧
      (retry 3 2 3 (fun _ =>
        (Except.error ⟨ExcClass.MLTrainingError, PyMsg.text "diverged"⟩ :
          Except PyExc Nat))).sleeps[1]? = some (2 * 3 ^ 1) := by
  obtain ⟨h1, h2, -, -⟩ :=
    claim_c4 _ (fun _ => ⟨ExcClass.MLTrainingError, PyMsg.text "diverged"⟩)
      3 2 3 (by norm_num) (by norm_num) (by norm_num) (fun _ => rfl)
  exact ⟨h1, h2 3 (by norm_num) (by norm_num)⟩

/-- C9: with `max_attempts = n ≥ 1` the attempt loop runs at least once,
so the wrapper's outcome is the verbatim result of some attempt (return
value or raised exception) and the `raise`-of-`None` branch is
unreachable; with `max_attempts = 0` the operation is never invoked and
the wrapper raises the `TypeError` produced by `raise None` instead of any
operation error. -/
theorem claim_c9 {α : Type} (op : Nat → Except PyExc α) (d b : ℚ) :
    (∀ n, 1 ≤ n → ∃ k, k < n ∧ (retry n d b op).outcome = op k ∧
        1 ≤ (retry n d b op).calls) ∧
      (retry 0 d b op).calls = 0 ∧
      (retry 0 d b op).outcome = Except.error raiseNoneExc := by
  refine ⟨?_, rfl, rfl⟩
  intro n hn
  obtain ⟨k, hk0, hk, hout, hcalls⟩ :=
    retryGo_outcome_of_attempt op b n hn 0 d none
  exact ⟨k, by omega, hout, hcalls⟩

/-- Witness for C9 at `n = 2` and an operation that succeeds
immediately. -/
theorem claim_c9_witness :
    ∃ k, k < 2 ∧
      (retry 2 1 2 (fun _ => (Except.ok 7 : Except PyExc Nat))).outcome =
        (fun _ => (Except.ok 7 : Except PyExc Nat)) k ∧
      1 ≤ (retry 2 1 2 (fun _ => (Except.ok 7 : Except PyExc Nat))).calls :=
  (claim_c9 (fun _ => (Except.ok 7 : Except PyExc Nat)) 1 2).1 2
    (by norm_num)

/-- C5 counterexample: an operation that always raises the built-in
`ValueError` exhausts `retry(max_attempts=3)` and the surfaced error is
that very `ValueError`, which is not an instance of `ICTTradingError` (nor
of any of its leaf subclasses) — the wrapper performs no taxonomy
classification on re-raise. -/
theorem claim_c5_counterexample :
    (retry 3 1 2 (fun _ =>
        (Except.error ⟨ExcClass.ValueError, PyMsg.text "boom"⟩ :
          Except PyExc Nat))).outcome =
      Except.error ⟨ExcClass.ValueError, PyMsg.text "boom"⟩ ∧
      isSubclassB ExcClass.ValueError ExcClass.ICTTradingError = false :=
  ⟨rfl, by decide⟩

/-- C5 amended: when the retry wrapper exhausts its attempts it re-raises
the most recent error object unchanged — every error surfaced out of the
wrapper is exactly an error raised by some attempt of the underlying
operation, with no reclassification into the `ICTTradingError`
taxonomy. -/
theorem claim_c5_amended {α : Type} (op : Nat → Except PyExc α) (n : Nat)
    (d b : ℚ) (hn : 1 ≤ n) (e : PyExc)
    (hout : (retry n d b op).outcome = Except.error e) :
    ∃ k, k < n ∧ op k = Except.error e := by
  obtain ⟨k, hk0, hk, houtk, -⟩ :=
    retryGo_outcome_of_attempt op b n hn 0 d none
  unfold retry at hout
  rw [houtk] at hout
  exact ⟨k, by omega, hout⟩

/-- Witness for the amended C5 at `n = 2` and a concrete always-failing
operation. -/
theorem claim_c5_witness :
    ∃ k, k < 2 ∧
      (fun _ =>
        (Except.error ⟨ExcClass.ConfigurationError, PyMsg.text "cfg"⟩ :
          Except PyExc Nat)) k =
        Except.error ⟨ExcClass.ConfigurationError, PyMsg.text "cfg"⟩ :=
  claim_c5_amended _ 2 1 2 (by norm_num) _ rfl

/-! ## Claims about the performance monitor -/

/-- C6: every invocation of a `monitor_performance`-wrapped operation
emits exactly one log record — a `debug` record when the operation
returns normally and an `error` record when it raises — and the wrapper is
otherwise transparent: it forwards the result or the original error object
unchanged; `monitor_performance_async` behaves identically. -/
theorem claim_c6 {α : Type} (funcName : String) (elapsed : ℚ)
    (op : Except PyExc α) :
    (monitor_performance funcName elapsed op).2.length = 1 ∧
      (monitor_performance funcName elapsed op).1 = op ∧
      (∀ a, op = Except.ok a →
        (monitor_performance funcName elapsed op).2 =
          [⟨LogLevel.debug, funcName, elapsed⟩]) ∧
      (∀ e, op = Except.error e →
        (monitor_performance funcName elapsed op).2 =
          [⟨LogLevel.error, funcName, elapsed⟩]) ∧
      monitor_performance_async funcName elapsed op =
        monitor_performance funcName elapsed op := by
  cases op <;>
    simp [monitor_performance, monitor_performance_async]

/-- Witness for C6 on a concrete successful operation. -/
theorem claim_c6_witness :
    (monitor_performance "fetch_data" 1 (Except.ok 5 : Except PyExc Nat)).2 =
        [⟨LogLevel.debug, "fetch_data", 1⟩] ∧
      (monitor_performance "fetch_data" 1
        (Except.ok 5 : Except PyExc Nat)).1 = Except.ok 5 := by
  obtain ⟨-, h1, h2, -, -⟩ :=
    claim_c6 "fetch_data" 1 (Except.ok 5 : Except PyExc Nat)
  exact ⟨h2 5 rfl, h1⟩

/-! ## Helper lemmas about the cache -/

/-- Looking up a key immediately after storing it: the value is visible
exactly while the fixed `cacheTtl` has not elapsed since the store. -/
theorem cacheGet_cachePut_same {V : Type} (st : CacheState V)
    (k : CacheKey) (v : V) (t now : ℚ) :
    cacheGet (cachePut st k v t) k now =
      if now < t + cacheTtl then some v else none := by
  simp [cacheGet, cachePut, cacheFind]

/-- Sorting keyword items is invariant under permutation of the items:
Python's `sorted` on distinct or equal pairs returns the same list for any
input ordering of the same multiset of items. -/
theorem sortKwargs_perm_eq {l1 l2 : List (String × String)}
    (h : l1.Perm l2) : sortKwargs l1 = sortKwargs l2 :=
  List.eq_of_perm_of_sorted
    ((List.perm_insertionSort kwLe l1).trans
      (h.trans (List.perm_insertionSort kwLe l2).symm))
    (List.sorted_insertionSort kwLe l1)
    (List.sorted_insertionSort kwLe l2)

/-- A call that misses the cache and succeeds: the operation is invoked,
its result is returned, and it is stored under the computed key. -/
theorem cache_result_store {V : Type} (T1 : ℚ) (funcName argsRepr : String)
    (kwargs : List (String × String)) (v : V) (t1 : ℚ) (st : CacheState V)
    (habsent : cacheGet st (cacheKeyOf funcName argsRepr kwargs) t1 = none) :
    cache_result T1 funcName (Except.ok v) argsRepr kwargs t1 st =
      ⟨true, Except.ok v,
        cachePut st (cacheKeyOf funcName argsRepr kwargs) v t1⟩ := by
  unfold cache_result
  rw [habsent]

/-- A call that misses the cache and fails: the operation is invoked, its
error propagates, and the cache state is left unchanged. -/
theorem cache_result_fail {V : Type} (T1 : ℚ) (funcName argsRepr : String)
    (kwargs : List (String × String)) (e : PyExc) (t1 : ℚ)
    (st : CacheState V)
    (habsent : cacheGet st (cacheKeyOf funcName argsRepr kwargs) t1 = none) :
    cache_result T1 funcName (Except.error e) argsRepr kwargs t1 st =
      ⟨true, Except.error e, st⟩ := by
  unfold cache_result
  rw [habsent]

/-- A call that hits the cache: the operation is not invoked and the cached
value is returned. -/
theorem cache_result_hit {V : Type} (T2 : ℚ) (funcName argsRepr : String)
    (kwargs : List (String × String)) (op2 : Except PyExc V) (t2 : ℚ)
    (st : CacheState V) (v : V)
    (hget : cacheGet st (cacheKeyOf funcName argsRepr kwargs) t2 = some v) :
    cache_result T2 funcName op2 argsRepr kwargs t2 st =
      ⟨false, Except.ok v, st⟩ := by
  unfold cache_result
  rw [hget]

/-- A call whose key is absent invokes the underlying operation, whatever
that operation does. -/
theorem cache_result_invoked_of_absent {V : Type} (T2 : ℚ)
    (funcName argsRepr : String) (kwargs : List (String × String))
    (op2 : Except PyExc V) (t2 : ℚ) (st : CacheState V)
    (hget : cacheGet st (cacheKeyOf funcName argsRepr kwargs) t2 = none) :
    (cache_result T2 funcName op2 argsRepr kwargs t2 st).invoked = true := by
  cases op2 with
  | ok r => unfold cache_result; rw [hget]
  | error e => unfold cache_result; rw [hget]

/-! ## Claims about the result cache -/

/-- C2 counterexample: with `ttl_seconds = 1`, two identical calls made 2
seconds apart — more than the requested TTL of 1 second — still share one
execution: the second call does not invoke the operation and returns the
first result, because the result was stored in the module-level `TTLCache`
with its fixed 300-second TTL, the `ttl_seconds` argument being
ignored. -/
theorem claim_c2_counterexample :
    (2 : ℚ) - 0 > 1 ∧
      (cache_result 1 "load_data" (Except.ok 43) "(5,)" [] 2
        (cache_result 1 "load_data" ((Except.ok 42 : Except PyExc Nat))
          "(5,)" [] 0 []).state).invoked = false ∧
      (cache_result 1 "load_data" (Except.ok 43) "(5,)" [] 2
        (cache_result 1 "load_data" ((Except.ok 42 : Except PyExc Nat))
          "(5,)" [] 0 []).state).result = Except.ok 42 := by
  have hstate : (cache_result 1 "load_data"
      ((Except.ok 42 : Except PyExc Nat)) "(5,)" [] 0 []).state =
      cachePut [] (cacheKeyOf "load_data" "(5,)" []) 42 0 := by
    rw [cache_result_store 1 "load_data" "(5,)" [] 42 0 [] rfl]
  have hget : cacheGet
      (cachePut [] (cacheKeyOf "load_data" "(5,)" []) 42 0)
      (cacheKeyOf "load_data" "(5,)" []) 2 = some 42 := by
    rw [cacheGet_cachePut_same,
      if_pos (by norm_num [cacheTtl] : (2 : ℚ) < 0 + cacheTtl)]
  refine ⟨by norm_num, ?_, ?_⟩ <;>
    rw [hstate, cache_result_hit 1 "load_data" "(5,)" [] _ 2 _ 42 hget]

/-- C2 amended: the entry is stored with the fixed 300-second TTL of the
module-level `_cache`, not with the decorator's `ttl_seconds` argument:
two identical calls less than 300 seconds apart invoke the operation once
in total and the second returns the first's result, while calls more than
300 seconds apart invoke it twice — irrespective of the `ttl_seconds`
values supplied to either call. -/
theorem claim_c2_amended {V : Type} (T1 T2 : ℚ) (funcName argsRepr : String)
    (kwargs : List (String × String)) (v : V) (op2 : Except PyExc V)
    (t1 t2 : ℚ) (st : CacheState V)
    (habsent : cacheGet st (cacheKeyOf funcName argsRepr kwargs) t1 = none) :
    (cache_result T1 funcName (Except.ok v) argsRepr kwargs t1 st).invoked
        = true ∧
      (cache_result T1 funcName (Except.ok v) argsRepr kwargs t1 st).result
        = Except.ok v ∧
      (t2 - t1 < 300 →
        (cache_result T2 funcName op2 argsRepr kwargs t2
          (cache_result T1 funcName (Except.ok v) argsRepr kwargs t1
            st).state).invoked = false ∧
        (cache_result T2 funcName op2 argsRepr kwargs t2
          (cache_result T1 funcName (Except.ok v) argsRepr kwargs t1
            st).state).result = Except.ok v) ∧
      (t2 - t1 > 300 →
        (cache_result T2 funcName op2 argsRepr kwargs t2
          (cache_result T1 funcName (Except.ok v) argsRepr kwargs t1
            st).state).invoked = true) := by
  have h1 := cache_result_store T1 funcName argsRepr kwargs v t1 st habsent
  have hput := cacheGet_cachePut_same st
    (cacheKeyOf funcName argsRepr kwargs) v t1 t2
  refine ⟨by rw [h1], by rw [h1], ?_, ?_⟩
  · intro hlt
    have hget : cacheGet
        (cachePut st (cacheKeyOf funcName argsRepr kwargs) v t1)
        (cacheKeyOf funcName argsRepr kwargs) t2 = some v := by
      rw [hput, if_pos (show t2 < t1 + cacheTtl by unfold cacheTtl; linarith)]
    constructor <;>
      rw [h1, cache_result_hit T2 funcName argsRepr kwargs op2 t2 _ v hget]
  · intro hgt
    have hget : cacheGet
        (cachePut st (cacheKeyOf funcName argsRepr kwargs) v t1)
        (cacheKeyOf funcName argsRepr kwargs) t2 = none := by
      rw [hput, if_neg (show ¬ t2 < t1 + cacheTtl by unfold cacheTtl; linarith)]
    rw [h1]
    exact cache_result_invoked_of_absent T2 funcName argsRepr kwargs op2 t2 _ hget

/-- Witness for the amended C2: a second identical call 100 seconds after
the first is served from the cache. -/
theorem claim_c2_witness :
    (cache_result 5 "load_bars" (Except.ok 11) "(1,)" [] 100
        (cache_result 5 "load_bars" ((Except.ok 10 : Except PyExc Nat))
          "(1,)" [] 0 []).state).invoked = false ∧
      (cache_result 5 "load_bars" (Except.ok 11) "(1,)" [] 100
        (cache_result 5 "load_bars" ((Except.ok 10 : Except PyExc Nat))
          "(1,)" [] 0 []).state).result = Except.ok 10 := by
  obtain ⟨-, -, h, -⟩ :=
    claim_c2_amended 5 5 "load_bars" "(1,)" [] (10 : Nat) (Except.ok 11)
      0 100 [] rfl
  exact h (by norm_num)

/-- C7: when a cache-wrapped operation raises, nothing is stored under the
fingerprint: the error propagates to the caller unmasked, the cache state
is exactly the state before the call, and a later call with the same
arguments (whose key is still absent) invokes the underlying operation
again in full. -/
theorem claim_c7 {V : Type} (T1 T2 : ℚ) (funcName argsRepr : String)
    (kwargs : List (String × String)) (e : PyExc) (op2 : Except PyExc V)
    (t1 t2 : ℚ) (st : CacheState V)
    (habsent1 : cacheGet st (cacheKeyOf funcName argsRepr kwargs) t1 = none)
    (habsent2 : cacheGet st (cacheKeyOf funcName argsRepr kwargs) t2 = none) :
    (cache_result T1 funcName (Except.error e) argsRepr kwargs t1 st).invoked
        = true ∧
      (cache_result T1 funcName (Except.error e) argsRepr kwargs t1 st).result
        = Except.error e ∧
      (cache_result T1 funcName (Except.error e) argsRepr kwargs t1 st).state
        = st ∧
      (cache_result T2 funcName op2 argsRepr kwargs t2
        (cache_result T1 funcName (Except.error e) argsRepr kwargs t1
          st).state).invoked = true := by
  have h1 := cache_result_fail T1 funcName argsRepr kwargs e t1 st habsent1
  refine ⟨by rw [h1], by rw [h1], by rw [h1], ?_⟩
  rw [h1]
  exact cache_result_invoked_of_absent T2 funcName argsRepr kwargs op2 t2
    st habsent2

/-- Witness for C7: a failing call on an empty cache, followed by a second
call 10 seconds later that runs the operation again. -/
theorem claim_c7_witness :
    (cache_result 60 "fetch_ohlc" (Except.error
        ⟨ExcClass.DataSourceError, PyMsg.text "timeout"⟩) "(8,)" [] 0
        ([] : CacheState Nat)).result =
      Except.error ⟨ExcClass.DataSourceError, PyMsg.text "timeout"⟩ ∧
      (cache_result 60 "fetch_ohlc" (Except.ok 4) "(8,)" [] 10
        (cache_result 60 "fetch_ohlc" (Except.error
          ⟨ExcClass.DataSourceError, PyMsg.text "timeout"⟩) "(8,)" [] 0
          ([] : CacheState Nat)).state).invoked = true := by
  obtain ⟨-, h1, -, h2⟩ :=
    claim_c7 60 60 "fetch_ohlc" "(8,)" []
      ⟨ExcClass.DataSourceError, PyMsg.text "timeout"⟩ (Except.ok 4)
      0 10 ([] : CacheState Nat) rfl rfl
  exact ⟨h1, h2⟩

/-- C8: the cache fingerprint is invariant under reordering of keyword
arguments — permuted keyword items yield the identical cache key — so a
second call with the same positional arguments and permuted keyword items,
made while the stored entry is live, is served from the cache without
invoking the operation and returns the first call's result. -/
theorem claim_c8 {V : Type} (T1 T2 : ℚ) (funcName argsRepr : String)
    (kw1 kw2 : List (String × String)) (v : V) (op2 : Except PyExc V)
    (t1 t2 : ℚ) (st : CacheState V) (hperm : kw1.Perm kw2)
    (habsent : cacheGet st (cacheKeyOf funcName argsRepr kw1) t1 = none)
    (hlive : t2 - t1 < 300) :
    cacheKeyOf funcName argsRepr kw1 = cacheKeyOf funcName argsRepr kw2 ∧
      (cache_result T2 funcName op2 argsRepr kw2 t2
        (cache_result T1 funcName (Except.ok v) argsRepr kw1 t1
          st).state).invoked = false ∧
      (cache_result T2 funcName op2 argsRepr kw2 t2
        (cache_result T1 funcName (Except.ok v) argsRepr kw1 t1
          st).state).result = Except.ok v := by
  have hkey : cacheKeyOf funcName argsRepr kw1 =
      cacheKeyOf funcName argsRepr kw2 := by
    unfold cacheKeyOf
    rw [sortKwargs_perm_eq hperm]
  have h1 := cache_result_store T1 funcName argsRepr kw1 v t1 st habsent
  have hget : cacheGet
      (cachePut st (cacheKeyOf funcName argsRepr kw1) v t1)
      (cacheKeyOf funcName argsRepr kw2) t2 = some v := by
    rw [← hkey, cacheGet_cachePut_same,
      if_pos (show t2 < t1 + cacheTtl by unfold cacheTtl; linarith)]
  refine ⟨hkey, ?_, ?_⟩ <;>
    rw [h1, cache_result_hit T2 funcName argsRepr kw2 op2 t2 _ v hget]

/-- Witness for C8: keyword items `b=2, a=1` then `a=1, b=2`. -/
theorem claim_c8_witness :
    cacheKeyOf "find_fvg" "()" [("b", "2"), ("a", "1")] =
        cacheKeyOf "find_fvg" "()" [("a", "1"), ("b", "2")] ∧
      (cache_result 9 "find_fvg" (Except.ok 1) "()" [("a", "1"), ("b", "2")]
        10 (cache_result 7 "find_fvg" ((Except.ok 3 : Except PyExc Nat)) "()"
          [("b", "2"), ("a", "1")] 0 []).state).invoked = false ∧
      (cache_result 9 "find_fvg" (Except.ok 1) "()" [("a", "1"), ("b", "2")]
        10 (cache_result 7 "find_fvg" ((Except.ok 3 : Except PyExc Nat)) "()"
          [("b", "2"), ("a", "1")] 0 []).state).result = Except.ok 3 :=
  claim_c8 7 9 "find_fvg" "()" [("b", "2"), ("a", "1")]
    [("a", "1"), ("b", "2")] 3 (Except.ok 1) 0 10 []
    (List.Perm.swap ("a", "1") ("b", "2") []) rfl (by norm_num)

/-- C10: the fingerprint depends on the operation only through its
`__name__` and every wrapped function shares the single module-level
`_cache`: after a cache-wrapped call of `f`, a cache-wrapped call of a
second operation `g` with the same function name and the same arguments,
made while the entry is live, returns `f`'s cached result without invoking
`g` at all — whatever `ttl_seconds` values the two wrappers received and
whatever `g` would have computed. -/
theorem claim_c10 {V : Type} (T1 T2 : ℚ) (funcName argsRepr : String)
    (kwargs : List (String × String)) (vF : V) (opG : Except PyExc V)
    (t1 t2 : ℚ) (st : CacheState V)
    (habsent : cacheGet st (cacheKeyOf funcName argsRepr kwargs) t1 = none)
    (hlive : t2 - t1 < 300) :
    (cache_result T2 funcName opG argsRepr kwargs t2
        (cache_result T1 funcName (Except.ok vF) argsRepr kwargs t1
          st).state).invoked = false ∧
      (cache_result T2 funcName opG argsRepr kwargs t2
        (cache_result T1 funcName (Except.ok vF) argsRepr kwargs t1
          st).state).result = Except.ok vF := by
  have h1 := cache_result_store T1 funcName argsRepr kwargs vF t1 st habsent
  have hget : cacheGet
      (cachePut st (cacheKeyOf funcName argsRepr kwargs) vF t1)
      (cacheKeyOf funcName argsRepr kwargs) t2 = some vF := by
    rw [cacheGet_cachePut_same,
      if_pos (show t2 < t1 + cacheTtl by unfold cacheTtl; linarith)]
  constructor <;>
    rw [h1, cache_result_hit T2 funcName argsRepr kwargs opG t2 _ vF hget]

/-- Witness for C10: `g` (wrapped with a different `ttl_seconds` and
computing 99) is shadowed by `f`'s cached 1. -/
theorem claim_c10_witness :
    (cache_result 120 "analyze" (Except.ok 99) "(2,)" [] 50
        (cache_result 30 "analyze" ((Except.ok 1 : Except PyExc Nat))
          "(2,)" [] 0 []).state).invoked = false ∧
      (cache_result 120 "analyze" (Except.ok 99) "(2,)" [] 50
        (cache_result 30 "analyze" ((Except.ok 1 : Except PyExc Nat))
          "(2,)" [] 0 []).state).result = Except.ok 1 :=
  claim_c10 30 120 "analyze" "(2,)" [] 1 (Except.ok 99) 0 50 [] rfl
    (by norm_num)

/-! ## Claims about the validation wrapper -/

/-- C3 counterexample: for a 3-row DataFrame with columns `{A, B}`,
`required_columns = [A, C]` and `min_rows = 5`, the wrapped operation is
indeed never invoked — but the raised error is the built-in `ValueError`,
not a `DataValidationError`, and its message reports only the row-count
shortfall (3 rows versus the required 5): the row check fires first and
the missing column `C` is not mentioned. -/
theorem claim_c3_counterexample :
    (validate_data (some ["A", "C"]) 5 (Except.ok 0 : Except PyExc Nat)
        [PyValue.frame ⟨["A", "B"], 3⟩] []).invoked = false ∧
      (validate_data (some ["A", "C"]) 5 (Except.ok 0 : Except PyExc Nat)
        [PyValue.frame ⟨["A", "B"], 3⟩] []).result =
        Except.error ⟨ExcClass.ValueError, PyMsg.rowCount 3 5⟩ ∧
      isSubclassB ExcClass.ValueError ExcClass.DataValidationError = false ∧
      PyMsg.rowCount 3 5 ≠
        PyMsg.missingColumns
          (missingColumnsOf ["A", "C"] ⟨["A", "B"], 3⟩) :=
  ⟨rfl, rfl, by decide, by decide⟩

/-- C3 amended: when the located DataFrame violates a precondition the
wrapper fails with the built-in `ValueError` before the wrapped operation
is invoked; a row-count shortfall is reported alone, with the actual and
required counts (the row check fires first, so missing columns go
unmentioned), and missing columns are identified only when the row count
is sufficient. -/
theorem claim_c3_amended {α : Type} (required_columns : List String)
    (min_rows : Nat) (op : Except PyExc α) (args : List PyValue)
    (kwargs : List (String × PyValue)) (df : DataFrame)
    (hdf : findDataFrame args kwargs = some df) :
    (df.nrows < min_rows →
      (validate_data (some required_columns) min_rows op args
        kwargs).invoked = false ∧
      (validate_data (some required_columns) min_rows op args
        kwargs).result =
        Except.error ⟨ExcClass.ValueError,
          PyMsg.rowCount df.nrows min_rows⟩) ∧
    (min_rows ≤ df.nrows → required_columns ≠ [] →
      missingColumnsOf required_columns df ≠ [] →
      (validate_data (some required_columns) min_rows op args
        kwargs).invoked = false ∧
      (validate_data (some required_columns) min_rows op args
        kwargs).result =
        Except.error ⟨ExcClass.ValueError,
          PyMsg.missingColumns (missingColumnsOf required_columns df)⟩) := by
  simp only [validate_data, hdf]
  constructor
  · intro hlt
    rw [if_pos hlt]
    exact ⟨rfl, rfl⟩
  · intro hge hne hmiss
    rw [if_neg (Nat.not_lt.mpr hge)]
    have ht : requiredTruthy (some required_columns) = true := by
      unfold requiredTruthy
      simpa using hne
    rw [if_pos ht]
    have hg : (some required_columns).getD [] = required_columns := rfl
    rw [hg]
    cases hm : missingColumnsOf required_columns df with
    | nil => exact absurd hm hmiss
    | cons c cs =>
      rw [if_pos (show (!(c :: cs).isEmpty) = true from rfl)]
      exact ⟨rfl, rfl⟩

/-- Witness for the amended C3, column branch: a 3-row DataFrame with
columns `{A, B}`, required columns `[A, C]` and `min_rows = 2` reports the
missing column `C`. -/
theorem claim_c3_witness :
    (validate_data (some ["A", "C"]) 2 (Except.ok 0 : Except PyExc Nat)
        [PyValue.frame ⟨["A", "B"], 3⟩] []).invoked = false ∧
      (validate_data (some ["A", "C"]) 2 (Except.ok 0 : Except PyExc Nat)
        [PyValue.frame ⟨["A", "B"], 3⟩] []).result =
        Except.error ⟨ExcClass.ValueError, PyMsg.missingColumns ["C"]⟩ :=
  (claim_c3_amended ["A", "C"] 2 (Except.ok 0)
      [PyValue.frame ⟨["A", "B"], 3⟩] [] ⟨["A", "B"], 3⟩ rfl).2
    (by norm_num) (by decide) (by decide)

end ICT

